import Mathlib

/-!
# Verification of the CICD Monitor frontend core

Shallow embedding of `frontend/src/lib/types.ts`, `frontend/src/lib/websocket.ts`
and `frontend/src/stores/monitorStore.ts`, together with theorems settling the
spec claims about the event reducer/store, the reconnecting transport and the
duration ticker.
-/

/-! ## Data model (`frontend/src/lib/types.ts`) -/

/-- `Event` from `types.ts`.  `metadata` is `Record<string, unknown>`; its values
are never inspected by the store, so they are modelled as strings. -/
structure Event where
  timestamp : String
  agent : String
  action : String
  workflow : Option String
  parent : Option String
  metadata : List (String × String)
deriving Repr, DecidableEq

/-- `MonitorState` from `types.ts`. -/
structure MonitorState where
  active_agent : Option String
  active_workflow : Option String
  started_at : Option String
  event_count : Nat
deriving Repr, DecidableEq

/-- `WebSocketMessage` from `types.ts`: `type` discriminates, the other fields
are optional. -/
structure WebSocketMessage where
  type : String
  events : Option (List Event) := none
  state : Option MonitorState := none
  event : Option Event := none
  message : Option String := none
deriving Repr, DecidableEq

/-! ## The store (`frontend/src/stores/monitorStore.ts`) -/

/-- The `MonitorStore` interface: event log, session state, connection flag. -/
structure MonitorStore where
  events : List Event
  state : MonitorState
  connected : Bool
deriving Repr, DecidableEq

/-- `initialState` from `monitorStore.ts`. -/
def initialState : MonitorStore :=
  { events := []
    state :=
      { active_agent := none
        active_workflow := none
        started_at := none
        event_count := 0 }
    connected := false }

/-- `updateStateFromEvent(state, event)`.  The source reads
`store.events.length` on its last line; SolidJS's `produce` mutates the
store's backing state in place, so by the time this function runs inside
`handleMessage` that length is the log length after the push and the
truncation of the current message.  It is passed here explicitly as
`storeEventsLength`. -/
def updateStateFromEvent (storeEventsLength : Nat) (state : MonitorState)
    (event : Event) : MonitorState :=
  let state1 :=
    if event.action = "start" then
      { state with
        active_agent := some event.agent
        active_workflow := event.workflow
        started_at := some event.timestamp }
    else if event.action = "end" then
      if state.active_agent = some event.agent then
        { state with
          active_agent := none
          active_workflow := none
          started_at := none }
      else state
    else state
  { state1 with event_count := storeEventsLength + 1 }

/-- `handleMessage(message)` acting on the store.  `init` replaces the log
(`message.events || []`) and, when supplied, the state; `event` (with an
event present) pushes the event, keeps only the last 1000 entries
(`slice(-1000)` when the length exceeds 1000), and folds the event into the
session state; anything else falls through untouched. -/
def handleMessage (s : MonitorStore) (message : WebSocketMessage) : MonitorStore :=
  if message.type = "init" then
    { s with
      events := message.events.getD []
      state :=
        match message.state with
        | some st => st
        | none => s.state }
  else if message.type = "event" then
    match message.event with
    | some e =>
      let events1 := s.events ++ [e]
      let events2 :=
        if events1.length > 1000 then events1.drop (events1.length - 1000)
        else events1
      { s with
        events := events2
        state := updateStateFromEvent events2.length s.state e }
    | none => s
  else s

/-- An `event`-type message carrying event `e`. -/
def eventMsg (e : Event) : WebSocketMessage :=
  { type := "event", event := some e }

/-- An `init`-type message carrying an event list. -/
def initMsg (es : List Event) : WebSocketMessage :=
  { type := "init", events := some es }

/-- An `event`-type message whose `event` field is absent. -/
def eventMsgNoEvent : WebSocketMessage := { type := "event" }

/-- Apply a sequence of `event`-type messages through `handleMessage`. -/
def applyEvents (s : MonitorStore) (es : List Event) : MonitorStore :=
  es.foldl (fun t e => handleMessage t (eventMsg e)) s

/-- A sample event, for concrete instantiations. -/
def mkEv (action agent : String) : Event :=
  { timestamp := "2026-01-01T00:00:00Z"
    agent := agent
    action := action
    workflow := some "wf"
    parent := none
    metadata := [] }

/-- 1001 identical events, for concrete instantiations. -/
def bigEvents : List Event := List.replicate 1001 (mkEv "start" "coder")

/-- A store with an active `coder` session, for concrete instantiations. -/
def demoStore : MonitorStore := applyEvents initialState [mkEv "start" "coder"]

/-! ## Spec-side description of the active agent

The spec states the final `active_agent` as a global property of the event
sequence: "the agent of the most recent `start` event not followed by an
`end` event with the same agent, and null if the most recent relevant event
for that agent was a matching `end`". -/

/-- Helper for `specActiveAgent`: the first argument is the event sequence
from most recent to oldest, the second accumulates the events that arrived
after the position currently being examined.  The first `start` found while
walking backwards is the most recent `start`; its agent is active unless an
`end` with the same agent occurs among the later events. -/
def specActiveAgentRev : List Event → List Event → Option String
  | [], _ => none
  | e :: earlier, later =>
    if e.action = "start" then
      if later.any (fun x => x.action == "end" && x.agent == e.agent) then none
      else some e.agent
    else specActiveAgentRev earlier (e :: later)

/-- The active agent as the spec words it, as a function of the whole event
sequence in arrival order. -/
def specActiveAgent (l : List Event) : Option String :=
  specActiveAgentRev l.reverse []

/-- The code's fold rule restricted to the `active_agent` field. -/
def activeAgentStep (cur : Option String) (e : Event) : Option String :=
  if e.action = "start" then some e.agent
  else if e.action = "end" then
    if cur = some e.agent then none else cur
  else cur

/-! ## resetMonitor and the aliasing of the initial state -/

/-- The module-level mutable bindings of `monitorStore.ts` that
`resetMonitor` touches: the store and the `duration` signal. -/
structure ModuleState where
  store : MonitorStore
  duration : String
deriving Repr, DecidableEq

/-- The shallow merge performed by `setStore(value)` when `value` is a plain
object: every top-level field of `value` is written into the backing state
(`mergeStoreNode`). -/
def setStoreMergeTopLevel (_state value : MonitorStore) : MonitorStore :=
  { events := value.events, state := value.state, connected := value.connected }

/-- `resetMonitor()` runs `setStore(initialState); setDuration("-")`.
`createStore(initialState)` adopts the `initialState` object itself as the
store's backing state, and `produce` mutates that backing object in place,
so by the time `resetMonitor` runs the `initialState` binding denotes the
store's current state: the merge writes the store's own current fields over
themselves.  Only the duration signal is reset. -/
def resetMonitor (m : ModuleState) : ModuleState :=
  { store := setStoreMergeTopLevel m.store m.store
    duration := "-" }

/-! ## The transport (`frontend/src/lib/websocket.ts`) -/

/-- `MonitorWebSocket` state: `ws` models the socket handle (`none` for
`null`, `some false` a created socket that is not open, `some true` an open
socket); `reconnectPending` holds when a scheduled reconnect timeout exists
that has neither fired nor been cancelled (`reconnectTimeout` with a live
timer); `isManualClose` is the manual-close flag. -/
structure MonitorWebSocket where
  ws : Option Bool
  reconnectPending : Bool
  isManualClose : Bool
deriving Repr, DecidableEq

/-- `connect()`: returns immediately when the socket is open, otherwise
clears the manual-close flag and creates a fresh socket (not yet open).  A
pending reconnect timer is not touched. -/
def wsConnect (s : MonitorWebSocket) : MonitorWebSocket :=
  if s.ws = some true then s
  else { s with isManualClose := false, ws := some false }

/-- `disconnect()`: sets the manual-close flag, cancels any pending
reconnect timer, closes the socket and nulls the handle. -/
def wsDisconnect (_s : MonitorWebSocket) : MonitorWebSocket :=
  { ws := none, reconnectPending := false, isManualClose := true }

/-- The `onclose` handler: the closed socket is no longer open; unless the
manual-close flag is set, `scheduleReconnect()` leaves exactly one pending
reconnect timeout. -/
def wsOnClose (s : MonitorWebSocket) : MonitorWebSocket :=
  let s1 := { s with ws := s.ws.map fun _ => false }
  if s1.isManualClose then s1 else { s1 with reconnectPending := true }

/-- Actions driving the transport: external calls to `connect()` and
`disconnect()`, a close notification from the socket, and the reconnect
timeout firing. -/
inductive WSAction where
  | connect
  | disconnect
  | closeEvent
  | timerFire
deriving Repr, DecidableEq

/-- One step of the transport.  The second component records whether
`connect()` was invoked during the step (directly, or by the reconnect
timeout's callback).  The timeout can fire only while it is pending. -/
def wsStep : WSAction → MonitorWebSocket → MonitorWebSocket × Bool
  | WSAction.connect, s => (wsConnect s, true)
  | WSAction.disconnect, s => (wsDisconnect s, false)
  | WSAction.closeEvent, s => (wsOnClose s, false)
  | WSAction.timerFire, s =>
    if s.reconnectPending then
      (wsConnect { s with reconnectPending := false }, true)
    else (s, false)

/-- Run a sequence of actions; the second component records whether
`connect()` was invoked anywhere along the run. -/
def wsRun : MonitorWebSocket → List WSAction → MonitorWebSocket × Bool
  | s, [] => (s, false)
  | s, a :: rest =>
    ((wsRun (wsStep a s).1 rest).1, (wsStep a s).2 || (wsRun (wsStep a s).1 rest).2)

/-- A transport state with an open socket and a pending reconnect timer. -/
def demoWS : MonitorWebSocket :=
  { ws := some true, reconnectPending := true, isManualClose := false }

/-! ## The duration ticker (`startDurationUpdater` in `monitorStore.ts`) -/

/-- The formatting done by one tick of the 1-second interval, given the
elapsed milliseconds `diff = Date.now() - new Date(startedAt).getTime()`.
`Math.floor` division is `Int.fdiv`; JavaScript `%` agrees with `Int.emod`
on the non-negative values produced in the branches that use it. -/
def formatDurationTick (diff : Int) : String :=
  let seconds := diff.fdiv 1000
  let minutes := seconds.fdiv 60
  let hours := minutes.fdiv 60
  if hours > 0 then s!"{hours}h {minutes % 60}m"
  else if minutes > 0 then s!"{minutes}m {seconds % 60}s"
  else s!"{seconds}s"

/-- One full tick: when `started_at` is null the sentinel `"-"` is shown,
otherwise the elapsed time is formatted. -/
def durationOnTick (startedDiff : Option Int) : String :=
  match startedDiff with
  | some diff => formatDurationTick diff
  | none => "-"

/-! ## Sanity checks on concrete inputs -/

example :
    (applyEvents initialState [mkEv "start" "coder"]).state.active_agent =
      some "coder" := by decide

example :
    (applyEvents initialState [mkEv "start" "coder"]).state.event_count = 2 := by
  decide

example :
    specActiveAgent [mkEv "start" "coder", mkEv "start" "pm", mkEv "end" "coder"] =
      some "pm" := by decide

example : formatDurationTick 45000 = "45s" := by decide

/-! ## Lemmas about the fold rule -/

theorem handleMessage_event_active (s : MonitorStore) (e : Event) :
    (handleMessage s (eventMsg e)).state.active_agent =
      activeAgentStep s.state.active_agent e := by
  simp only [handleMessage, eventMsg, updateStateFromEvent, activeAgentStep]
  by_cases h1 : e.action = "start" <;> by_cases h2 : e.action = "end" <;>
    by_cases h3 : s.state.active_agent = some e.agent <;>
      simp [h1, h2, h3]

theorem applyEvents_append_one (s : MonitorStore) (es : List Event) (e : Event) :
    applyEvents s (es ++ [e]) = handleMessage (applyEvents s es) (eventMsg e) := by
  simp [applyEvents, List.foldl_append]

/-- `specActiveAgentRev` depends on the `later` accumulator only through
which matching ends it contains. -/
theorem specActiveAgentRev_congr (rev : List Event) :
    ∀ later₁ later₂ : List Event,
      (∀ a : String,
        (later₁.any fun x => x.action == "end" && x.agent == a) =
          (later₂.any fun x => x.action == "end" && x.agent == a)) →
      specActiveAgentRev rev later₁ = specActiveAgentRev rev later₂ := by
  induction rev with
  | nil => intro _ _ _; rfl
  | cons e earlier ih =>
    intro later₁ later₂ h
    simp only [specActiveAgentRev]
    by_cases hs : e.action = "start"
    · simp [hs, h e.agent]
    · simp only [hs, if_false]
      exact ih _ _ (fun a => by simp [List.any_cons, h a])

/-- Prepending one more later event to the accumulator is exactly one step of
the code's fold rule, provided that event is not a `start`. -/
theorem specActiveAgentRev_push (rev : List Event) :
    ∀ (later : List Event) (e : Event), e.action ≠ "start" →
      specActiveAgentRev rev (e :: later) =
        activeAgentStep (specActiveAgentRev rev later) e := by
  induction rev with
  | nil =>
    intro later e he
    simp only [specActiveAgentRev, activeAgentStep, he, if_false]
    by_cases hend : e.action = "end" <;> simp [hend]
  | cons x earlier ih =>
    intro later e he
    by_cases hx : x.action = "start"
    · simp only [specActiveAgentRev, hx, if_true, List.any_cons]
      by_cases hend : e.action = "end"
      · by_cases hagent : e.agent = x.agent
        · by_cases hlater :
            (later.any fun y => y.action == "end" && y.agent == x.agent) = true <;>
            simp [activeAgentStep, he, hend, hagent, hlater]
        · by_cases hlater :
            (later.any fun y => y.action == "end" && y.agent == x.agent) = true <;>
            simp [activeAgentStep, he, hend, hagent, hlater, Ne.symm hagent]
      · simp [activeAgentStep, he, hend]
    · simp only [specActiveAgentRev, hx, if_false]
      rw [specActiveAgentRev_congr earlier (x :: e :: later) (e :: x :: later)
            (fun a => by simp [List.any_cons, Bool.or_left_comm])]
      exact ih (x :: later) e he

/-- The spec function satisfies the code's step recurrence on the right end. -/
theorem specActiveAgent_append (es : List Event) (e : Event) :
    specActiveAgent (es ++ [e]) = activeAgentStep (specActiveAgent es) e := by
  by_cases hs : e.action = "start"
  · simp [specActiveAgent, specActiveAgentRev, activeAgentStep, hs]
  · simp only [specActiveAgent, List.reverse_append, List.reverse_singleton,
      List.singleton_append, specActiveAgentRev, hs, if_false]
    exact specActiveAgentRev_push es.reverse [] e hs

/-! ## Shape of the event log after a sequence of event messages -/

theorem handleMessage_event_events (s : MonitorStore) (e : Event) :
    (handleMessage s (eventMsg e)).events =
      if (s.events ++ [e]).length > 1000 then
        (s.events ++ [e]).drop ((s.events ++ [e]).length - 1000)
      else s.events ++ [e] := by
  simp [handleMessage, eventMsg]

theorem applyEvents_events (es : List Event) :
    (applyEvents initialState es).events = es.drop (es.length - 1000) := by
  induction es using List.reverseRecOn with
  | nil => rfl
  | append_singleton es e ih =>
    rw [applyEvents_append_one, handleMessage_event_events, ih]
    by_cases h : 1000 ≤ es.length
    · have hlen : (es.drop (es.length - 1000)).length = 1000 := by
        simp only [List.length_drop]; omega
      have hgt : ((es.drop (es.length - 1000)) ++ [e]).length > 1000 := by
        simp only [List.length_append, List.length_singleton, hlen]
        omega
      have h1 : ((es.drop (es.length - 1000)) ++ [e]).length - 1000 = 1 := by
        simp only [List.length_append, List.length_singleton, hlen]
      have hle2 : (es ++ [e]).length - 1000 ≤ es.length := by
        simp only [List.length_append, List.length_singleton]
        omega
      have harith : (es ++ [e]).length - 1000 = es.length - 1000 + 1 := by
        simp only [List.length_append, List.length_singleton]
        omega
      rw [if_pos hgt, h1, List.drop_append_of_le_length (by omega),
        List.drop_drop, List.drop_append_of_le_length hle2, harith]
    · have h0 : es.length - 1000 = 0 := by omega
      have hng : ¬ ((es.drop (es.length - 1000)) ++ [e]).length > 1000 := by
        simp only [List.length_append, List.length_singleton, List.length_drop]
        omega
      have h0' : (es ++ [e]).length - 1000 = 0 := by
        simp only [List.length_append, List.length_singleton]
        omega
      rw [if_neg hng, h0, List.drop_zero, h0', List.drop_zero]

/-! ## event_count after an event message -/

/-- After an `event` message, `event_count` is the post-append,
post-truncation log length plus one, because `updateStateFromEvent` reads
`store.events.length` after `produce` has already pushed and truncated. -/
theorem handleMessage_event_count_len (s : MonitorStore) (e : Event) :
    (handleMessage s (eventMsg e)).state.event_count =
      (handleMessage s (eventMsg e)).events.length + 1 := by
  simp [handleMessage, eventMsg, updateStateFromEvent]

/-- The same value in terms of the log length before the message arrived. -/
theorem handleMessage_event_count_min (s : MonitorStore) (e : Event) :
    (handleMessage s (eventMsg e)).state.event_count =
      min (s.events.length + 1) 1000 + 1 := by
  rw [handleMessage_event_count_len, handleMessage_event_events]
  by_cases h : (s.events ++ [e]).length > 1000
  · rw [if_pos h]
    simp only [List.length_drop, List.length_append, List.length_singleton] at h ⊢
    omega
  · rw [if_neg h]
    simp only [List.length_append, List.length_singleton] at h ⊢
    omega

/-- After an `event` message the new event sits at the end of the log. -/
theorem handleMessage_event_getLast (s : MonitorStore) (e : Event) :
    (handleMessage s (eventMsg e)).events.getLast? = some e := by
  rw [handleMessage_event_events]
  by_cases h : (s.events ++ [e]).length > 1000
  · rw [if_pos h, List.drop_append_of_le_length (by
      simp only [List.length_append, List.length_singleton] at h ⊢
      omega)]
    simp
  · rw [if_neg h]
    simp

/-! ## Transport lemmas -/

/-- After `disconnect()`, as long as `connect()` is not called again, no
step invokes `connect()`, no reconnect becomes pending, and the
manual-close flag stays set. -/
theorem wsRun_suppressed (acts : List WSAction) :
    ∀ s : MonitorWebSocket, s.reconnectPending = false →
      s.isManualClose = true → WSAction.connect ∉ acts →
      (wsRun s acts).2 = false ∧
      (wsRun s acts).1.reconnectPending = false ∧
      (wsRun s acts).1.isManualClose = true := by
  induction acts with
  | nil => intro s h1 h2 _; exact ⟨rfl, h1, h2⟩
  | cons a rest ih =>
    intro s h1 h2 hmem
    have hrest : WSAction.connect ∉ rest := fun h => hmem (List.mem_cons_of_mem a h)
    cases a with
    | connect => exact absurd (List.mem_cons_self _ _) hmem
    | disconnect =>
      have := ih (wsDisconnect s) rfl rfl hrest
      simpa [wsRun, wsStep] using this
    | closeEvent =>
      have hstate : wsOnClose s = { s with ws := s.ws.map fun _ => false } := by
        simp [wsOnClose, h2]
      have := ih (wsOnClose s) (by rw [hstate]; exact h1)
        (by rw [hstate]; exact h2) hrest
      simpa [wsRun, wsStep] using this
    | timerFire =>
      have := ih s h1 h2 hrest
      simpa [wsRun, wsStep, h1] using this

/-! ## Duration ticker lemmas -/

theorem int_fdiv_natCast (m n : Nat) :
    ((m : Int)).fdiv (n : Int) = ((m / n : Nat) : Int) := by
  cases m with
  | zero => simp [Int.fdiv, Nat.zero_div]
  | succ k => rfl

theorem int_emod_natCast (m n : Nat) :
    ((m : Int)) % (n : Int) = ((m % n : Nat) : Int) := by
  exact_mod_cast rfl

/-- For a non-negative elapsed time of `sec` whole seconds, the formatted
duration follows the three-range format from the spec. -/
theorem formatDurationTick_natCast (sec : Nat) :
    formatDurationTick ((sec : Int) * 1000) =
      if 3600 ≤ sec then s!"{sec / 3600}h {sec / 60 % 60}m"
      else if 60 ≤ sec then s!"{sec / 60}m {sec % 60}s"
      else s!"{sec}s" := by
  unfold formatDurationTick
  dsimp only
  have hms : ((sec : Int) * 1000) = ((sec * 1000 : Nat) : Int) := by
    exact_mod_cast rfl
  have h1000 : ((1000 : Nat) : Int) = (1000 : Int) := by norm_cast
  have h60 : ((60 : Nat) : Int) = (60 : Int) := by norm_cast
  have e1 : ((sec : Int) * 1000).fdiv 1000 = ((sec : Nat) : Int) := by
    rw [hms, ← h1000, int_fdiv_natCast, Nat.mul_div_cancel]
    omega
  rw [e1, ← h60, int_fdiv_natCast, int_fdiv_natCast, int_emod_natCast,
    int_emod_natCast]
  have hdd : sec / 60 / 60 = sec / 3600 := by omega
  rw [hdd]
  by_cases hh : 3600 ≤ sec
  · rw [if_pos (by exact_mod_cast (by omega : 0 < sec / 3600)), if_pos hh]
    rfl
  · rw [if_neg (by exact_mod_cast (by omega : ¬ 0 < sec / 3600))]
    by_cases hm : 60 ≤ sec
    · rw [if_pos (by exact_mod_cast (by omega : 0 < sec / 60)), if_neg hh,
        if_pos hm]
      rfl
    · rw [if_neg (by exact_mod_cast (by omega : ¬ 0 < sec / 60)), if_neg hh,
        if_neg hm]
      rfl

/-! ## Claim theorems -/

/-- C1: after any finite sequence of `event`-type messages from the empty
initial state, `active_agent` is the agent of the most recent `start` event
not followed by an `end` event with the same agent (and `none` when the most
recent relevant event for that agent was a matching `end`, or when no `start`
occurred at all); moreover a `start` event unconditionally overwrites
`active_agent`, `active_workflow` and `started_at` with its own agent,
workflow and timestamp. -/
theorem claim_C1 :
    (∀ es : List Event,
      (applyEvents initialState es).state.active_agent = specActiveAgent es) ∧
    (∀ (s : MonitorStore) (e : Event), e.action = "start" →
      (handleMessage s (eventMsg e)).state.active_agent = some e.agent ∧
      (handleMessage s (eventMsg e)).state.active_workflow = e.workflow ∧
      (handleMessage s (eventMsg e)).state.started_at = some e.timestamp) := by
  constructor
  · intro es
    induction es using List.reverseRecOn with
    | nil => rfl
    | append_singleton es e ih =>
      rw [applyEvents_append_one, handleMessage_event_active, ih,
        specActiveAgent_append]
  · intro s e he
    refine ⟨?_, ?_, ?_⟩ <;>
      simp [handleMessage, eventMsg, updateStateFromEvent, he]

/-- Witness for C1 at concrete inputs. -/
theorem claim_C1_witness :
    (handleMessage initialState (eventMsg (mkEv "start" "coder"))).state.active_agent =
      some "coder" ∧
    (applyEvents initialState
        [mkEv "start" "coder", mkEv "end" "coder"]).state.active_agent =
      specActiveAgent [mkEv "start" "coder", mkEv "end" "coder"] :=
  ⟨(claim_C1.2 initialState (mkEv "start" "coder") rfl).1,
    claim_C1.1 [mkEv "start" "coder", mkEv "end" "coder"]⟩

/-- C2 as stated is false: after the first `event` message `event_count` is
already 2, not 1. -/
theorem claim_C2_counterexample :
    ¬ (applyEvents initialState [mkEv "start" "coder"]).state.event_count = 1 := by
  decide

/-- C2 (amended): after the k-th `event` message from the empty initial
state, `event_count` equals `min k 1000 + 1`: it exceeds the number of
applied events by one while the log is below capacity, and saturates at 1001
once truncation begins, instead of increasing without bound. -/
theorem claim_C2 (es : List Event) (e : Event) :
    (applyEvents initialState (es ++ [e])).state.event_count =
      min (es.length + 1) 1000 + 1 := by
  have hlen : (applyEvents initialState es).events.length = min es.length 1000 := by
    rw [applyEvents_events]
    simp only [List.length_drop]
    omega
  rw [applyEvents_append_one, handleMessage_event_count_min, hlen]
  omega

/-- C3 as stated is false: applying one `event` message to the empty initial
state (log length 0 before the append) sets `event_count` to 2, not 0 + 1. -/
theorem claim_C3_counterexample :
    ¬ (handleMessage initialState (eventMsg (mkEv "start" "coder"))).state.event_count =
        initialState.events.length + 1 := by
  decide

/-- C3 (amended): after an `event` message, `event_count` equals the log
length after this append and truncation, plus one — equivalently
`min (log length before the append + 1) 1000 + 1` — not the pre-append
length plus one. -/
theorem claim_C3 (s : MonitorStore) (e : Event) :
    (handleMessage s (eventMsg e)).state.event_count =
      (handleMessage s (eventMsg e)).events.length + 1 ∧
    (handleMessage s (eventMsg e)).state.event_count =
      min (s.events.length + 1) 1000 + 1 :=
  ⟨handleMessage_event_count_len s e, handleMessage_event_count_min s e⟩

/-- C4: from the empty log, the log after any sequence of `event`-type
messages is the arrival-order sequence with all but the last 1000 entries
dropped from the front; in particular after 1001 events the log has length
exactly 1000 and its first element is the event that arrived second. -/
theorem claim_C4 :
    (∀ es : List Event,
      (applyEvents initialState es).events = es.drop (es.length - 1000)) ∧
    (∀ es : List Event, es.length = 1001 →
      (applyEvents initialState es).events.length = 1000 ∧
      (applyEvents initialState es).events.head? = es[1]?) := by
  refine ⟨applyEvents_events, ?_⟩
  intro es hlen
  rw [applyEvents_events, hlen]
  constructor
  · simp only [List.length_drop, hlen]
  · have h1 : (1001 : Nat) - 1000 = 1 := by omega
    rw [h1, List.head?_drop]

/-- Witness for C4 at a concrete 1001-event input. -/
theorem claim_C4_witness :
    (applyEvents initialState bigEvents).events.length = 1000 ∧
    (applyEvents initialState bigEvents).events.head? = bigEvents[1]? :=
  claim_C4.2 bigEvents (by simp only [bigEvents, List.length_replicate])

/-- C5 fails on the code: `resetMonitor` never changes the store — the
shallow merge of `setStore(initialState)` writes the store's own mutated
fields back over themselves — and only the duration string is reset.  At
the reachable state after one `start` event, the log still holds one entry,
`event_count` is still 2 and `coder` is still active after the reset. -/
theorem claim_C5 :
    (∀ m : ModuleState, (resetMonitor m).store = m.store ∧
      (resetMonitor m).duration = "-") ∧
    (resetMonitor { store := demoStore, duration := "5s" }).store.events.length = 1 ∧
    (resetMonitor { store := demoStore, duration := "5s" }).store.state.event_count = 2 ∧
    (resetMonitor { store := demoStore, duration := "5s" }).store.state.active_agent =
      some "coder" := by
  refine ⟨fun m => ⟨rfl, rfl⟩, ?_, ?_, ?_⟩ <;> decide

/-- C7: `disconnect()` cancels any pending reconnect timeout, and in any
continuation that does not call `connect()` again, no step ever invokes
`connect()` (in particular the suppressed reconnect never fires) and no
close notification schedules a new reconnect. -/
theorem claim_C7 (s : MonitorWebSocket) (acts : List WSAction)
    (h : WSAction.connect ∉ acts) :
    (wsDisconnect s).reconnectPending = false ∧
    (wsRun (wsDisconnect s) acts).2 = false ∧
    (wsRun (wsDisconnect s) acts).1.reconnectPending = false := by
  have hinv := wsRun_suppressed acts (wsDisconnect s) rfl rfl h
  exact ⟨rfl, hinv.1, hinv.2.1⟩

/-- Witness for C7: disconnecting while a reconnect is pending, then a
close notification, the (cancelled) timer slot, and another close. -/
theorem claim_C7_witness :
    (wsDisconnect demoWS).reconnectPending = false ∧
    (wsRun (wsDisconnect demoWS)
      [WSAction.closeEvent, WSAction.timerFire, WSAction.closeEvent]).2 = false ∧
    (wsRun (wsDisconnect demoWS)
        [WSAction.closeEvent, WSAction.timerFire,
          WSAction.closeEvent]).1.reconnectPending = false :=
  claim_C7 demoWS [WSAction.closeEvent, WSAction.timerFire, WSAction.closeEvent]
    (by decide)

/-- C8: a tick shows `"-"` when `started_at` is null, `"1m 30s"` at 90
elapsed seconds, `"1h 1m"` at 3661 elapsed seconds, and in general
hours-and-minutes from one hour up, minutes-and-seconds from one minute up
to an hour, and seconds below that. -/
theorem claim_C8 :
    durationOnTick none = "-" ∧
    durationOnTick (some 90000) = "1m 30s" ∧
    durationOnTick (some 3661000) = "1h 1m" ∧
    ∀ sec : Nat,
      durationOnTick (some ((sec : Int) * 1000)) =
        if 3600 ≤ sec then s!"{sec / 3600}h {sec / 60 % 60}m"
        else if 60 ≤ sec then s!"{sec / 60}m {sec % 60}s"
        else s!"{sec}s" :=
  ⟨rfl, by decide, by decide, fun sec => formatDurationTick_natCast sec⟩

/-- C9: the `init` path installs the supplied event list verbatim, with no
truncation, so an `init` with 1001 events leaves a log of length 1001 and
the capacity bound of 1000 is not an invariant preserved by every
operation. -/
theorem claim_C9 :
    (∀ (s : MonitorStore) (es : List Event),
      (handleMessage s (initMsg es)).events = es) ∧
    1000 < (handleMessage initialState (initMsg bigEvents)).events.length := by
  constructor
  · intro s es
    simp [handleMessage, initMsg]
  · have h : (handleMessage initialState (initMsg bigEvents)).events = bigEvents := by
      simp [handleMessage, initMsg]
    rw [h]
    simp only [bigEvents, List.length_replicate]
    omega

/-- C10: an `event`-type message with no `event` field is a complete no-op
on the store: log, session state and connection flag are all unchanged, and
`handleMessage` is total, so no error can be raised. -/
theorem claim_C10 (s : MonitorStore) :
    handleMessage s eventMsgNoEvent = s := by
  simp [handleMessage, eventMsgNoEvent]

/-- C6: an `end` event whose agent is not the active agent leaves all three
active-session fields unchanged, while the event is still appended at the
end of the log and `event_count` still receives its usual update. -/
theorem claim_C6 (s : MonitorStore) (e : Event) (hend : e.action = "end")
    (hne : s.state.active_agent ≠ some e.agent) :
    (handleMessage s (eventMsg e)).state.active_agent = s.state.active_agent ∧
    (handleMessage s (eventMsg e)).state.active_workflow = s.state.active_workflow ∧
    (handleMessage s (eventMsg e)).state.started_at = s.state.started_at ∧
    (handleMessage s (eventMsg e)).events.getLast? = some e ∧
    (handleMessage s (eventMsg e)).state.event_count =
      (handleMessage s (eventMsg e)).events.length + 1 := by
  have hns : ¬ e.action = "start" := by rw [hend]; decide
  refine ⟨?_, ?_, ?_, handleMessage_event_getLast s e,
    handleMessage_event_count_len s e⟩ <;>
    simp [handleMessage, eventMsg, updateStateFromEvent, hend, hns, hne]

/-- Witness for C6: an `end` for `pm` while `coder` is active. -/
theorem claim_C6_witness :
    (handleMessage demoStore (eventMsg (mkEv "end" "pm"))).state.active_agent =
      demoStore.state.active_agent ∧
    (handleMessage demoStore (eventMsg (mkEv "end" "pm"))).state.active_workflow =
      demoStore.state.active_workflow ∧
    (handleMessage demoStore (eventMsg (mkEv "end" "pm"))).state.started_at =
      demoStore.state.started_at ∧
    (handleMessage demoStore (eventMsg (mkEv "end" "pm"))).events.getLast? =
      some (mkEv "end" "pm") ∧
    (handleMessage demoStore (eventMsg (mkEv "end" "pm"))).state.event_count =
      (handleMessage demoStore (eventMsg (mkEv "end" "pm"))).events.length + 1 :=
  claim_C6 demoStore (mkEv "end" "pm") rfl (by decide)
